import Mathlib

/-!
# Shallow embedding of the Boarding.ai simulation API backend

This file embeds the request/response schema and the two HTTP handlers of
`backend/app.py` (a FastAPI application) into Lean and proves properties of
them.

Modelling conventions:
* Python `int` becomes `Int`, Python `float` becomes `ℚ` (the handlers only
  store literal float values and never compute with them, so rational
  modelling is exact).
* Pydantic `Optional[T] = default` fields become `Option T` fields with the
  corresponding default.
* The global dict `RUN_STORAGE` becomes an association list threaded through
  the handlers as explicit state; dict assignment conses a fresh binding in
  front and `storeLookup` returns the first binding for a key, which agrees
  with dict read semantics.
* `uuid.uuid4()` draws sixteen random bytes; the randomness is modelled by a
  natural-number parameter `r`.  As in CPython, the version nibble is forced
  to `4`, the variant bits to `10`, and the value is rendered as 8-4-4-4-12
  lowercase hexadecimal.
* `raise HTTPException(...)` becomes the `Except.error` branch of an
  `Except HTTPException` result.
-/

set_option linter.unusedVariables false

/-- Pydantic model `Aircraft`. -/
structure Aircraft where
  type : String
  num_rows : Int
  seats_per_row : Int
  num_aisles : Int
deriving DecidableEq, Repr

/-- Pydantic model `Load`. -/
structure Load where
  load_factor : ℚ
deriving DecidableEq, Repr

/-- Pydantic model `Boarding`.  Both fields are plain strings: the schema
imposes no membership check against a set of supported policy names. -/
structure Boarding where
  method : String
  baseline_method : String
deriving DecidableEq, Repr

/-- Pydantic model `Bags`. -/
structure Bags where
  carry_on_rate : ℚ
  bin_capacity_per_row : Int
deriving DecidableEq, Repr

/-- Pydantic model `Behavior` with its field defaults. -/
structure Behavior where
  walking_speed_mean : Option ℚ := some (13/10)
  stow_time_carry_on_mean : Option ℚ := some 12
  seat_slide_time_mean : Option ℚ := some 3
  late_pax_rate : Option ℚ := some (2/100)
deriving DecidableEq, Repr

/-- Pydantic model `Controls` with its field defaults. -/
structure Controls where
  time_step : Option ℚ := some (1/2)
  num_runs : Option Int := some 25
  cost_per_minute_delay : Option ℚ := some 75
deriving DecidableEq, Repr

/-- Pydantic model `SimulateRequest`: a schema-valid request body. -/
structure SimulateRequest where
  aircraft : Aircraft
  load : Load
  boarding : Boarding
  bags : Bags
  behavior : Option Behavior := none
  controls : Option Controls := none
deriving DecidableEq, Repr

/-- Pydantic model `Assumptions` with its field default. -/
structure Assumptions where
  flights_per_year : Option Int := some 1825
deriving DecidableEq, Repr

/-- Pydantic model `SimulateResponse`. -/
structure SimulateResponse where
  run_id : String
  total_boarding_time_sec : Int
  time_to_50_percent_sec : Option Int := none
  time_to_90_percent_sec : Option Int := none
  num_aisle_conflicts : Int
  max_aisle_queue_length : Option Int := none
  avg_wait_time_per_pax_sec : Option ℚ := none
  baseline_boarding_time_sec : Int
  delta_vs_baseline_sec : Int
  percent_faster_vs_baseline : ℚ
  dollars_saved_per_flight : ℚ
  dollars_saved_per_year : ℚ
  assumptions : Option Assumptions := none
deriving DecidableEq, Repr

/-- FastAPI `HTTPException` as raised by the handlers. -/
structure HTTPException where
  status_code : Nat
  detail : String
deriving DecidableEq, Repr

/-- The type of the global dict `RUN_STORAGE : Dict[str, SimulateResponse]`. -/
abbrev RunStore := List (String × SimulateResponse)

/-- Dict read: the first binding for `key` (later insertions sit in front). -/
def storeLookup : RunStore → String → Option SimulateResponse
  | [], _ => none
  | (k, v) :: rest, key => if k = key then some v else storeLookup rest key

/-- The lowercase hexadecimal digit character of `n % 16`: codepoint `48 + d`
(digits `0`-`9`) for `d < 10`, codepoint `87 + d` (letters `a`-`f`) above. -/
def hexDigit (n : Nat) : Char :=
  if n % 16 < 10 then Char.ofNat (48 + n % 16) else Char.ofNat (87 + n % 16)

/-- `toHex k n` renders the low `k` nibbles of `n` as `k` lowercase
hexadecimal characters, most significant first (Python `'%0kx' % n` for
`n < 16 ^ k`). -/
def toHex : Nat → Nat → List Char
  | 0, _ => []
  | k + 1, n => toHex k (n / 16) ++ [hexDigit n]

/-- Model of `str(uuid.uuid4())`.  The sixteen random bytes are modelled by
`r` (only `r % 2 ^ 128` matters); the version nibble is forced to `4` and the
two variant bits to `10`, and the 128-bit value is printed as five
hyphen-separated lowercase-hex groups of 8, 4, 4, 4 and 12 digits. -/
def uuid4str (r : Nat) : String :=
  String.mk (toHex 8 (r % 2 ^ 128 / 2 ^ 96) ++ '-' ::
    (toHex 4 (r % 2 ^ 128 / 2 ^ 80 % 2 ^ 16) ++ '-' ::
    (toHex 4 (4 * 2 ^ 12 + r % 2 ^ 128 / 2 ^ 64 % 2 ^ 12) ++ '-' ::
    (toHex 4 (2 ^ 15 + r % 2 ^ 128 / 2 ^ 48 % 2 ^ 14) ++ '-' ::
    toHex 12 (r % 2 ^ 128 % 2 ^ 48)))))

/-- Whether `c` is a lowercase hexadecimal digit character. -/
def isHexDigit (c : Char) : Bool :=
  (decide (48 ≤ c.toNat) && decide (c.toNat ≤ 57)) ||
    (decide (97 ≤ c.toNat) && decide (c.toNat ≤ 102))

/-- A string has the canonical UUID shape: five groups of lowercase-hex
characters of lengths 8, 4, 4, 4 and 12, separated by hyphens. -/
def isUUIDFormat (s : String) : Prop :=
  ∃ a b c d e : List Char,
    a.length = 8 ∧ b.length = 4 ∧ c.length = 4 ∧ d.length = 4 ∧ e.length = 12 ∧
    (∀ ch ∈ a ++ b ++ c ++ d ++ e, isHexDigit ch = true) ∧
    s.data = a ++ '-' :: (b ++ '-' :: (c ++ '-' :: (d ++ '-' :: e)))

/-- The hard-coded response body built inside `simulate` in `backend/app.py`
(the float literals `28.0`, `9.4`, `225.0`, `410000.0` as rationals). -/
def fixedResponse (run_id : String) : SimulateResponse :=
  { run_id := run_id
    total_boarding_time_sec := 1830
    time_to_50_percent_sec := some 740
    time_to_90_percent_sec := some 1540
    num_aisle_conflicts := 142
    max_aisle_queue_length := some 12
    avg_wait_time_per_pax_sec := some 28
    baseline_boarding_time_sec := 2020
    delta_vs_baseline_sec := -190
    percent_faster_vs_baseline := 94/10
    dollars_saved_per_flight := 225
    dollars_saved_per_year := 410000
    assumptions := some {} }

/-- The `POST /simulate` handler: draw a fresh run id (randomness modelled by
`r`), build the fixed response (the request body `req` is never consulted),
store the response under the run id in `RUN_STORAGE`, and return it together
with the updated store. -/
def simulate (req : SimulateRequest) (r : Nat) (store : RunStore) :
    SimulateResponse × RunStore :=
  let run_id := uuid4str r
  let response := fixedResponse run_id
  (response, (run_id, response) :: store)

/-- The `GET /simulation-result/...` handler: a 404 `HTTPException` when
`run_id` is not a key of `RUN_STORAGE`, otherwise the stored response; the
store itself is returned unchanged (the handler never writes to it). -/
def get_simulation_result (store : RunStore) (run_id : String) :
    Except HTTPException SimulateResponse × RunStore :=
  match storeLookup store run_id with
  | none => (Except.error ⟨404, "Run ID not found"⟩, store)
  | some resp => (Except.ok resp, store)

/-- A representative schema-valid request: all required fields populated,
optional sections omitted (so `Controls.cost_per_minute_delay` defaults). -/
def exampleReq : SimulateRequest :=
  { aircraft := { type := "A320", num_rows := 30, seats_per_row := 6, num_aisles := 1 }
    load := { load_factor := 85/100 }
    boarding := { method := "back_to_front", baseline_method := "random" }
    bags := { carry_on_rate := 1/2, bin_capacity_per_row := 6 }
    behavior := none
    controls := none }

/-- A schema-valid request whose boarding method names designate no supported
policy. -/
def unsupportedMethodReq : SimulateRequest :=
  { aircraft := { type := "A320", num_rows := 30, seats_per_row := 6, num_aisles := 1 }
    load := { load_factor := 85/100 }
    boarding := { method := "definitely_not_a_policy", baseline_method := "also_not_a_policy" }
    bags := { carry_on_rate := 1/2, bin_capacity_per_row := 6 }
    behavior := none
    controls := none }

/-- A schema-valid request with `load_factor = 0`. -/
def zeroLoadReq : SimulateRequest :=
  { aircraft := { type := "A320", num_rows := 30, seats_per_row := 6, num_aisles := 1 }
    load := { load_factor := 0 }
    boarding := { method := "back_to_front", baseline_method := "random" }
    bags := { carry_on_rate := 1/2, bin_capacity_per_row := 6 }
    behavior := none
    controls := none }

/-- A store already holding one response under the key `"abc"`. -/
def demoStore : RunStore := [("abc", fixedResponse "abc")]

/-- `toHex k n` always has exactly `k` characters. -/
theorem toHex_length (k : Nat) : ∀ n, (toHex k n).length = k := by
  induction k with
  | zero => intro n; rfl
  | succ k ih => intro n; simp [toHex, ih]

/-- `hexDigit` always yields a lowercase hexadecimal digit character. -/
theorem isHexDigit_hexDigit (n : Nat) : isHexDigit (hexDigit n) = true := by
  have h : n % 16 < 16 := Nat.mod_lt _ (by norm_num)
  have hall : ∀ m : Fin 16,
      isHexDigit (if (m : Nat) < 10 then Char.ofNat (48 + (m : Nat))
        else Char.ofNat (87 + (m : Nat))) = true := by decide
  have := hall ⟨n % 16, h⟩
  simpa [hexDigit] using this

/-- Every character produced by `toHex` is a lowercase hexadecimal digit. -/
theorem toHex_mem (k : Nat) : ∀ n c, c ∈ toHex k n → isHexDigit c = true := by
  induction k with
  | zero => intro n c hc; simp [toHex] at hc
  | succ k ih =>
    intro n c hc
    simp only [toHex, List.mem_append, List.mem_singleton] at hc
    rcases hc with hc | hc
    · exact ih _ _ hc
    · subst hc; exact isHexDigit_hexDigit n

/-- Every string produced by the modelled `uuid.uuid4()` has the canonical
8-4-4-4-12 lowercase-hex UUID shape. -/
theorem isUUIDFormat_uuid4str (r : Nat) : isUUIDFormat (uuid4str r) := by
  refine ⟨toHex 8 (r % 2 ^ 128 / 2 ^ 96),
    toHex 4 (r % 2 ^ 128 / 2 ^ 80 % 2 ^ 16),
    toHex 4 (4 * 2 ^ 12 + r % 2 ^ 128 / 2 ^ 64 % 2 ^ 12),
    toHex 4 (2 ^ 15 + r % 2 ^ 128 / 2 ^ 48 % 2 ^ 14),
    toHex 12 (r % 2 ^ 128 % 2 ^ 48),
    toHex_length 8 _, toHex_length 4 _, toHex_length 4 _, toHex_length 4 _,
    toHex_length 12 _, ?_, rfl⟩
  intro ch hch
  simp only [List.mem_append] at hch
  rcases hch with ((((h | h) | h) | h) | h) <;> exact toHex_mem _ _ _ h

/-- Claim C1: the simulate handler never consults the request body — from one
and the same randomness and store, any two schema-valid requests produce the
very same response and the very same updated store (no field of aircraft,
load, boarding, bags, behavior or controls influences the outcome). -/
theorem simulate_ignores_request (req1 req2 : SimulateRequest) (r : Nat)
    (store : RunStore) :
    simulate req1 r store = simulate req2 r store := rfl

/-- Claim C2: the response returned by the simulate handler, carrying run id
`run_id`, is exactly what a subsequent retrieval of that run id from the
updated store returns, and the run id has the canonical UUID string shape. -/
theorem simulate_roundtrip_and_uuid (req : SimulateRequest) (r : Nat)
    (store : RunStore) :
    (get_simulation_result (simulate req r store).2
        (simulate req r store).1.run_id).1 = Except.ok (simulate req r store).1 ∧
    isUUIDFormat (simulate req r store).1.run_id := by
  constructor
  · simp [simulate, get_simulation_result, storeLookup, fixedResponse]
  · exact isUUIDFormat_uuid4str r

/-- Claim C3, code evaluated at the failing input: the simulate handler
performs no policy-name validation; a schema-valid request whose
`boarding.method` and `boarding.baseline_method` are not supported policy
names is accepted, and a full response is both returned and stored. -/
theorem simulate_accepts_unsupported_method :
    (simulate unsupportedMethodReq 0 []).1 = fixedResponse (uuid4str 0) ∧
    storeLookup (simulate unsupportedMethodReq 0 []).2 (uuid4str 0) =
      some (fixedResponse (uuid4str 0)) := by
  refine ⟨rfl, ?_⟩
  simp [simulate, storeLookup]

/-- Claim C4, code evaluated at the failing input: for a schema-valid request
with `load_factor = 0` the handler does not fault, but it returns the fixed
values `total_boarding_time_sec = 1830` and `num_aisle_conflicts = 142`
rather than the zero-passenger values `0` and `0` the claim requires. -/
theorem simulate_zero_load_not_zero :
    (simulate zeroLoadReq 0 []).1.total_boarding_time_sec = 1830 ∧
    (simulate zeroLoadReq 0 []).1.num_aisle_conflicts = 142 ∧
    ¬ ((simulate zeroLoadReq 0 []).1.total_boarding_time_sec = 0 ∧
      (simulate zeroLoadReq 0 []).1.num_aisle_conflicts = 0) := by
  refine ⟨rfl, rfl, ?_⟩
  intro h
  have h1 : (1830 : Int) = 0 := h.1
  exact absurd h1 (by norm_num)

/-- Claim C5: every response returned by the simulate handler carries
percentile times with
`total_boarding_time_sec ≥ time_to_90_percent_sec ≥ time_to_50_percent_sec ≥ 0`. -/
theorem response_percentile_ordering (req : SimulateRequest) (r : Nat)
    (store : RunStore) :
    ∃ t50 t90 : Int,
      (simulate req r store).1.time_to_50_percent_sec = some t50 ∧
      (simulate req r store).1.time_to_90_percent_sec = some t90 ∧
      (simulate req r store).1.total_boarding_time_sec ≥ t90 ∧
      t90 ≥ t50 ∧ t50 ≥ 0 :=
  ⟨740, 1540, rfl, rfl, by norm_num [simulate, fixedResponse],
    by norm_num, by norm_num⟩

/-- Claim C6 counterexample: at a concrete schema-valid request the claim as
stated fails — the returned `percent_faster_vs_baseline` is `9.4`, while
`100 * (baseline_boarding_time_sec - total_boarding_time_sec) /
baseline_boarding_time_sec = 100 * 190 / 2020 = 950/101 ≈ 9.40594…`. -/
theorem percent_formula_counterexample :
    ¬ ((simulate exampleReq 0 []).1.delta_vs_baseline_sec =
        (simulate exampleReq 0 []).1.total_boarding_time_sec -
          (simulate exampleReq 0 []).1.baseline_boarding_time_sec ∧
      (simulate exampleReq 0 []).1.percent_faster_vs_baseline =
        100 * (((simulate exampleReq 0 []).1.baseline_boarding_time_sec : ℚ) -
            ((simulate exampleReq 0 []).1.total_boarding_time_sec : ℚ)) /
          ((simulate exampleReq 0 []).1.baseline_boarding_time_sec : ℚ)) := by
  intro h
  have h2 := h.2
  norm_num [simulate, fixedResponse] at h2

/-- Claim C6 amended: for every schema-valid request,
`delta_vs_baseline_sec = total_boarding_time_sec - baseline_boarding_time_sec`
holds exactly, and `percent_faster_vs_baseline` equals
`100 * (baseline - total) / baseline` rounded to one decimal place
(`9.4` rather than the exact `950/101`). -/
theorem delta_exact_percent_rounded (req : SimulateRequest) (r : Nat)
    (store : RunStore) :
    (simulate req r store).1.delta_vs_baseline_sec =
      (simulate req r store).1.total_boarding_time_sec -
        (simulate req r store).1.baseline_boarding_time_sec ∧
    (simulate req r store).1.percent_faster_vs_baseline =
      (round (10 * (100 *
            (((simulate req r store).1.baseline_boarding_time_sec : ℚ) -
              ((simulate req r store).1.total_boarding_time_sec : ℚ)) /
          ((simulate req r store).1.baseline_boarding_time_sec : ℚ))) : ℤ) / 10 := by
  constructor
  · norm_num [simulate, fixedResponse]
  · show (94/10 : ℚ) = (round ((10 : ℚ) * (100 * (((2020 : Int) : ℚ) -
      ((1830 : Int) : ℚ)) / ((2020 : Int) : ℚ))) : ℤ) / 10
    have hval : (10 : ℚ) * (100 * (((2020 : Int) : ℚ) - ((1830 : Int) : ℚ)) /
        ((2020 : Int) : ℚ)) = 9500 / 101 := by norm_num
    rw [hval]
    have hround : round ((9500 : ℚ) / 101) = 94 := by
      rw [round_eq]
      norm_num
    rw [hround]
    norm_num

/-- Claim C7, code evaluated at the failing input: for a schema-valid request
with controls omitted (`cost_per_minute_delay` defaults to `75`) the handler
returns `dollars_saved_per_flight = 225` and `dollars_saved_per_year =
410000`, yet the claimed formulas give
`(delta_vs_baseline_sec / 60) * 75 * (-1) = (-190/60) * 75 * (-1) = 237.5`
and `dollars_saved_per_flight * flights_per_year = 225 * 1825 = 410625`
(`1825` being the `flights_per_year` carried in the response's own
assumptions), so neither equation holds. -/
theorem dollars_formula_violated :
    (simulate exampleReq 0 []).1.dollars_saved_per_flight = 225 ∧
    (simulate exampleReq 0 []).1.dollars_saved_per_year = 410000 ∧
    ¬ ((simulate exampleReq 0 []).1.dollars_saved_per_flight =
        (((simulate exampleReq 0 []).1.delta_vs_baseline_sec : ℚ) / 60) *
          75 * (-1)) ∧
    ¬ ((simulate exampleReq 0 []).1.dollars_saved_per_year =
        (simulate exampleReq 0 []).1.dollars_saved_per_flight * 1825) := by
  refine ⟨rfl, rfl, ?_, ?_⟩ <;> norm_num [simulate, fixedResponse]

/-- Claim C8: retrieval returns the stored response whenever `run_id` is a key
of the run store, and yields the 404 "Run ID not found" error — a handled
client error, never an unhandled fault — exactly when `run_id` is not a key. -/
theorem get_result_found_iff (store : RunStore) (run_id : String) :
    (∀ resp, storeLookup store run_id = some resp →
      get_simulation_result store run_id = (Except.ok resp, store)) ∧
    (get_simulation_result store run_id =
        (Except.error ⟨404, "Run ID not found"⟩, store) ↔
      storeLookup store run_id = none) := by
  constructor
  · intro resp h
    simp [get_simulation_result, h]
  · constructor
    · intro h
      cases hl : storeLookup store run_id with
      | none => rfl
      | some v => simp [get_simulation_result, hl] at h
    · intro h
      simp [get_simulation_result, h]

/-- Claim C8 witness: on a concrete store, a present key returns its stored
response and an absent key satisfies the 404 characterisation. -/
theorem get_result_found_iff_witness :
    get_simulation_result demoStore "abc" =
      (Except.ok (fixedResponse "abc"), demoStore) ∧
    (get_simulation_result demoStore "missing" =
        (Except.error ⟨404, "Run ID not found"⟩, demoStore) ↔
      storeLookup demoStore "missing" = none) :=
  ⟨(get_result_found_iff demoStore "abc").1 (fixedResponse "abc") rfl,
    (get_result_found_iff demoStore "missing").2⟩

/-- Claim C9: for a `run_id` present in the run store, a second retrieval
performed on the store left by a first retrieval returns the identical
payload, and retrieval leaves the run store unchanged. -/
theorem retrieval_idempotent (store : RunStore) (run_id : String)
    (h : ∃ resp, storeLookup store run_id = some resp) :
    (get_simulation_result ((get_simulation_result store run_id).2) run_id).1 =
      (get_simulation_result store run_id).1 ∧
    (get_simulation_result store run_id).2 = store := by
  obtain ⟨resp, hresp⟩ := h
  simp [get_simulation_result, hresp]

/-- Claim C9 witness: the idempotence theorem applied to the concrete store
holding `"abc"`. -/
theorem retrieval_idempotent_witness :
    (∃ resp, storeLookup demoStore "abc" = some resp) ∧
    ((get_simulation_result ((get_simulation_result demoStore "abc").2) "abc").1 =
      (get_simulation_result demoStore "abc").1 ∧
    (get_simulation_result demoStore "abc").2 = demoStore) :=
  ⟨⟨fixedResponse "abc", rfl⟩,
    retrieval_idempotent demoStore "abc" ⟨fixedResponse "abc", rfl⟩⟩

/-- Claim C10: a simulate call only adds one new entry to the run store —
every key present before the call and distinct from the returned `run_id`
still maps to its old payload afterwards. -/
theorem simulate_frame (req : SimulateRequest) (r : Nat) (store : RunStore)
    (k : String) (v : SimulateResponse)
    (hk : k ≠ (simulate req r store).1.run_id)
    (hv : storeLookup store k = some v) :
    storeLookup (simulate req r store).2 k = some v := by
  have hstore : (simulate req r store).2 =
      (uuid4str r, fixedResponse (uuid4str r)) :: store := rfl
  rw [hstore]
  have hne : ¬ (uuid4str r = k) := by
    intro he
    exact hk he.symm
  simp [storeLookup, hne, hv]

/-- Claim C10 witness: the frame theorem applied to the concrete store holding
`"abc"`, which differs from the drawn run id. -/
theorem simulate_frame_witness :
    ("abc" ≠ (simulate exampleReq 0 demoStore).1.run_id ∧
      storeLookup demoStore "abc" = some (fixedResponse "abc")) ∧
    storeLookup (simulate exampleReq 0 demoStore).2 "abc" =
      some (fixedResponse "abc") :=
  ⟨⟨by decide, rfl⟩,
    simulate_frame exampleReq 0 demoStore "abc" (fixedResponse "abc")
      (by decide) rfl⟩
